import Mathlib

/-!
Shallow embedding of the message-dispatch core of `src/air_mouse_receiver.py`
(the `process_message` coroutine and the statistics record it mutates),
together with proofs about it.

Modelling decisions, all taken from the source:
* A decoded JSON value (`json.loads` output) is a `JVal`; JSON numbers are
  modelled as rationals (`ℚ`), booleans as `jbool` (Python `bool` is an `int`
  subclass, so it multiplies like 0/1).  A raw inbound message is an
  `Option JVal`: `none` stands for a byte string on which `json.loads` raises
  `JSONDecodeError`.
* The module-level configuration constants `MOUSE_ACCELERATION = 1.2` and
  `SMOOTH_MOVEMENT = True` are passed explicitly as a `Config` record whose
  default values are those constants.
* The host (pyautogui) is a `Host` record carrying the cursor position,
  screen size, and one flag per injection primitive saying whether that call
  raises when invoked (e.g. the pyautogui fail-safe interlock).
* `process_message` returns the updated statistics, the ordered list of host
  calls it performed (reads included), the reply frames it sent over the
  websocket, and an `Outcome` recording which `except` branch, if any, caught
  an exception.  The Python function never lets an exception escape: the
  `try`/`except json.JSONDecodeError`/`except Exception` wrapper catches
  everything, so the Lean model is a total function and the connection
  handler's loop always continues.
-/

/-- A decoded JSON value, as produced by Python's `json.loads`. -/
inductive JVal where
  | jnull
  | jbool (b : Bool)
  | jnum (q : ℚ)
  | jstr (s : String)
  | jarr (elems : List JVal)
  | jobj (fields : List (String × JVal))

/-- Python `dict.get k` on a dict built by `json.loads`: with duplicate keys
the last binding wins, absent keys give `none`. -/
def jget (fs : List (String × JVal)) (k : String) : Option JVal :=
  fs.foldl (fun acc p => if p.1 = k then some p.2 else acc) none

/-- Python `dict.get k d` (lookup with default). -/
def jgetD (fs : List (String × JVal)) (k : String) (d : JVal) : JVal :=
  (jget fs k).getD d

/-- Python `v == s` for a string literal `s`: true only for an equal `str`. -/
def isStr (v : JVal) (s : String) : Bool :=
  match v with
  | .jstr t => t == s
  | _ => false

/-- Whether a decoded value is a JSON object (a Python `dict`). -/
def isObj (v : JVal) : Bool :=
  match v with
  | .jobj _ => true
  | _ => false

/-- Python `int(q)` on a rational: truncation toward zero (floor for a
nonnegative argument, ceiling for a negative one). -/
def truncRat (q : ℚ) : ℤ :=
  if 0 ≤ q then ⌊q⌋ else ⌈q⌉

/-- `clamp v lo hi = max lo (min hi v)`, the shape of
`max(0, min(bound - 1, v))` in the source. -/
def clamp (v lo hi : ℤ) : ℤ :=
  max lo (min hi v)

/-- Python `int(data.get(field, 0) * MOUSE_ACCELERATION)`.
`none` models the `TypeError` raised when the field's value is not a number
(a string, `null`, array or object cannot be multiplied by the float
acceleration factor); a Python `bool` is an `int` subclass and multiplies as
0 or 1; an absent field defaults to the integer `0`. -/
def coerceDelta (v : Option JVal) (accel : ℚ) : Option ℤ :=
  match v with
  | none => some (truncRat (0 * accel))
  | some (.jnum q) => some (truncRat (q * accel))
  | some (.jbool b) => some (truncRat ((if b then 1 else 0) * accel))
  | some _ => none

/-- The statistics record `stats = {'commands': 0, 'movements': 0, 'clicks': 0}`. -/
structure Stats where
  commands : ℕ
  movements : ℕ
  clicks : ℕ

/-- The module-level configuration constants. -/
structure Config where
  accel : ℚ
  smooth : Bool

/-- `MOUSE_ACCELERATION = 1.2`. -/
def MOUSE_ACCELERATION : ℚ := 6 / 5

/-- `SMOOTH_MOVEMENT = True`. -/
def SMOOTH_MOVEMENT : Bool := true

/-- The configuration as set at the top of the source file. -/
def defaultConfig : Config := ⟨MOUSE_ACCELERATION, SMOOTH_MOVEMENT⟩

/-- One call made on the host input subsystem (pyautogui). -/
inductive HostCall where
  | readPos
  | readSize
  | moveTo (x y : ℤ) (smooth : Bool)
  | clickLeft
  | clickRight
  | clickDouble
  | scroll (amount : ℤ)

/-- The host environment for one dispatch: cursor position, screen size, and
whether each injection primitive raises when invoked. -/
structure Host where
  posX : ℤ
  posY : ℤ
  screenW : ℤ
  screenH : ℤ
  failMove : Bool
  failClickLeft : Bool
  failClickRight : Bool
  failClickDouble : Bool
  failScroll : Bool

/-- A reply frame written back through the websocket, e.g.
`{"type": "response", "message": "Click executed"}`. -/
structure ReplyFrame where
  typ : String
  message : String

/-- Which `except` branch of `process_message`, if any, caught an exception.
The function itself always returns normally. -/
inductive Outcome where
  | ok
  | decodeError
  | processingError

/-- Everything observable about one `process_message` call. -/
structure DispatchResult where
  stats : Stats
  calls : List HostCall
  replies : List ReplyFrame
  outcome : Outcome

/-- Shallow embedding of `process_message` (src/air_mouse_receiver.py,
lines 52-113).  `none` is a message on which `json.loads` raises.  Side
effects already performed when an exception is raised are kept, exactly as in
the mutable Python original; the exception is then caught by the enclosing
`except` clause, so the function is total. -/
def process_message (cfg : Config) (host : Host) (stats : Stats)
    (msg : Option JVal) : DispatchResult :=
  match msg with
  | none =>
    -- json.loads raises JSONDecodeError; caught, nothing was mutated
    ⟨stats, [], [], .decodeError⟩
  | some data =>
    match data with
    | .jobj fs =>
      let msg_type := jgetD fs "type" (.jstr "")
      let stats1 : Stats := { stats with commands := stats.commands + 1 }
      if isStr msg_type "move" then
        match coerceDelta (jget fs "deltaX") cfg.accel with
        | none => ⟨stats1, [], [], .processingError⟩
        | some delta_x =>
          match coerceDelta (jget fs "deltaY") cfg.accel with
          | none => ⟨stats1, [], [], .processingError⟩
          | some delta_y =>
            if delta_x ≠ 0 ∨ delta_y ≠ 0 then
              let new_x := max 0 (min (host.screenW - 1) (host.posX + delta_x))
              let new_y := max 0 (min (host.screenH - 1) (host.posY + delta_y))
              let calls := [HostCall.readPos, HostCall.readSize,
                            HostCall.moveTo new_x new_y cfg.smooth]
              if host.failMove then
                ⟨stats1, calls, [], .processingError⟩
              else
                ⟨{ stats1 with movements := stats1.movements + 1 }, calls, [], .ok⟩
            else
              ⟨stats1, [], [], .ok⟩
      else if isStr msg_type "command" then
        let command := jgetD fs "command" (.jstr "")
        if isStr command "leftclick" then
          if host.failClickLeft then
            ⟨stats1, [HostCall.clickLeft], [], .processingError⟩
          else
            ⟨{ stats1 with clicks := stats1.clicks + 1 }, [HostCall.clickLeft],
             [⟨"response", "Click executed"⟩], .ok⟩
        else if isStr command "rightclick" then
          if host.failClickRight then
            ⟨stats1, [HostCall.clickRight], [], .processingError⟩
          else
            ⟨{ stats1 with clicks := stats1.clicks + 1 }, [HostCall.clickRight], [], .ok⟩
        else if isStr command "doubleclick" then
          if host.failClickDouble then
            ⟨stats1, [HostCall.clickDouble], [], .processingError⟩
          else
            ⟨{ stats1 with clicks := stats1.clicks + 1 }, [HostCall.clickDouble], [], .ok⟩
        else if isStr command "scroll_up" then
          if host.failScroll then
            ⟨stats1, [HostCall.scroll 3], [], .processingError⟩
          else
            ⟨stats1, [HostCall.scroll 3], [], .ok⟩
        else if isStr command "scroll_down" then
          if host.failScroll then
            ⟨stats1, [HostCall.scroll (-3)], [], .processingError⟩
          else
            ⟨stats1, [HostCall.scroll (-3)], [], .ok⟩
        else
          -- unrecognized command string: silently ignored
          ⟨stats1, [], [], .ok⟩
      else if isStr msg_type "status" then
        -- `data.get('device', 'Unknown')` is only printed; no state change
        ⟨stats1, [], [], .ok⟩
      else
        -- unknown or missing type: counted, otherwise a no-op
        ⟨stats1, [], [], .ok⟩
    | _ =>
      -- `data.get('type', '')` on a non-dict raises AttributeError, caught by
      -- the generic except clause; this happens BEFORE the counter increment
      ⟨stats, [], [], .processingError⟩

/-- Dispatching a sequence of frames, each with the host environment in force
when it arrives, threading the statistics record through. -/
def runFrames (cfg : Config) (l : List (Host × Option JVal)) (stats : Stats) : Stats :=
  match l with
  | [] => stats
  | (host, msg) :: rest => runFrames cfg rest (process_message cfg host stats msg).stats

/-- The `move` branch of `process_message` once the two deltas have been
scaled and truncated, factored out so that several theorems can reuse it.
`process_message` is proved equal to it on move frames (`move_branch_eq`). -/
def moveResult (cfg : Config) (host : Host) (stats : Stats) (dx dy : ℤ) : DispatchResult :=
  let stats1 : Stats := { stats with commands := stats.commands + 1 }
  if dx ≠ 0 ∨ dy ≠ 0 then
    let new_x := max 0 (min (host.screenW - 1) (host.posX + dx))
    let new_y := max 0 (min (host.screenH - 1) (host.posY + dy))
    let calls := [HostCall.readPos, HostCall.readSize,
                  HostCall.moveTo new_x new_y cfg.smooth]
    if host.failMove then ⟨stats1, calls, [], .processingError⟩
    else ⟨{ stats1 with movements := stats1.movements + 1 }, calls, [], .ok⟩
  else ⟨stats1, [], [], .ok⟩

/-- The cursor targets commanded by the host-move calls of a dispatch. -/
def moveTargets (r : DispatchResult) : List (ℤ × ℤ) :=
  r.calls.filterMap fun c =>
    match c with
    | HostCall.moveTo x y _ => some (x, y)
    | _ => none

/-- Modelled from the spec's words for comparison with the code: the move
target claimed in section 8, `clamp(current + round(delta *
accelerationFactor), 0, bound-1)`, with rounding to the nearest integer. -/
def specRoundTarget (current : ℤ) (delta accel : ℚ) (bound : ℤ) : ℤ :=
  clamp (current + round (delta * accel)) 0 (bound - 1)

/-- A host with the cursor at (100, 100) on a 1920x1080 screen, every
injection call succeeding. -/
def sampleHost : Host := ⟨100, 100, 1920, 1080, false, false, false, false, false⟩

/-- A host with the cursor near the screen corner, at (5, 5). -/
def edgeHost : Host := ⟨5, 5, 1920, 1080, false, false, false, false, false⟩

/-- A host whose move-injection primitive raises (e.g. the fail-safe). -/
def failingMoveHost : Host := ⟨100, 100, 1920, 1080, true, false, false, false, false⟩

/-- The configuration of the spec's acceleration-2.0 scenario. -/
def accel2Config : Config := ⟨2, true⟩

/-- `{"type": "move", "deltaX": 3, "deltaY": 0}`. -/
def moveFrame3 : List (String × JVal) :=
  [("type", JVal.jstr "move"), ("deltaX", JVal.jnum 3), ("deltaY", JVal.jnum 0)]

/-- `{"type": "move", "deltaX": -999999, "deltaY": 0}` (spec scenario). -/
def bigNegMoveFrame : List (String × JVal) :=
  [("type", JVal.jstr "move"), ("deltaX", JVal.jnum (-999999)), ("deltaY", JVal.jnum 0)]

/-- `{"type": "move", "deltaX": "abc", "deltaY": 5}`: a malformed deltaX. -/
def badDeltaFrame : List (String × JVal) :=
  [("type", JVal.jstr "move"), ("deltaX", JVal.jstr "abc"), ("deltaY", JVal.jnum 5)]

/-- `{"type": "move", "deltaX": 0, "deltaY": 0}`. -/
def zeroMoveFrame : List (String × JVal) :=
  [("type", JVal.jstr "move"), ("deltaX", JVal.jnum 0), ("deltaY", JVal.jnum 0)]

/-- `{"type": "move", "deltaX": 10, "deltaY": -5}` (spec scenario). -/
def scenarioMoveFrame : List (String × JVal) :=
  [("type", JVal.jstr "move"), ("deltaX", JVal.jnum 10), ("deltaY", JVal.jnum (-5))]

/-- `{"type": "command", "command": "leftclick"}`. -/
def leftclickFrame : List (String × JVal) :=
  [("type", JVal.jstr "command"), ("command", JVal.jstr "leftclick")]

theorem truncRat_eq_of_nonneg {q : ℚ} {n : ℤ} (h0 : 0 ≤ q) (h1 : (n : ℚ) ≤ q)
    (h2 : q < (n : ℚ) + 1) : truncRat q = n := by
  rw [truncRat, if_pos h0]
  exact Int.floor_eq_iff.mpr ⟨h1, h2⟩

theorem truncRat_eq_of_neg {q : ℚ} {n : ℤ} (h0 : q < 0) (h1 : (n : ℚ) - 1 < q)
    (h2 : q ≤ (n : ℚ)) : truncRat q = n := by
  rw [truncRat, if_neg (not_le.mpr h0)]
  exact Int.ceil_eq_iff.mpr ⟨h1, h2⟩

theorem truncRat_zero_mul (accel : ℚ) : truncRat (0 * accel) = 0 := by
  simp [truncRat]

theorem truncRat_zero : truncRat 0 = 0 := by
  simp [truncRat]

theorem move_branch_eq (cfg : Config) (host : Host) (stats : Stats)
    (fs : List (String × JVal)) (dx dy : ℤ)
    (hty : jget fs "type" = some (JVal.jstr "move"))
    (hdx : coerceDelta (jget fs "deltaX") cfg.accel = some dx)
    (hdy : coerceDelta (jget fs "deltaY") cfg.accel = some dy) :
    process_message cfg host stats (some (JVal.jobj fs)) =
      moveResult cfg host stats dx dy := by
  simp only [process_message, jgetD, hty, Option.getD_some, hdx, hdy, isStr,
    beq_self_eq_true, if_pos, moveResult]

theorem move_branch_badDelta (cfg : Config) (host : Host) (stats : Stats)
    (fs : List (String × JVal))
    (hty : jget fs "type" = some (JVal.jstr "move"))
    (hbad : coerceDelta (jget fs "deltaX") cfg.accel = none ∨
            coerceDelta (jget fs "deltaY") cfg.accel = none) :
    process_message cfg host stats (some (JVal.jobj fs)) =
      ⟨⟨stats.commands + 1, stats.movements, stats.clicks⟩, [], [], .processingError⟩ := by
  rcases hbad with h | h
  · simp only [process_message, jgetD, hty, Option.getD_some, isStr,
      beq_self_eq_true, if_pos, h]
  · cases hX : coerceDelta (jget fs "deltaX") cfg.accel with
    | none =>
      simp only [process_message, jgetD, hty, Option.getD_some, isStr,
        beq_self_eq_true, if_pos, hX]
    | some dx =>
      simp only [process_message, jgetD, hty, Option.getD_some, isStr,
        beq_self_eq_true, if_pos, hX, h]

theorem commands_obj (cfg : Config) (host : Host) (stats : Stats)
    (fs : List (String × JVal)) :
    (process_message cfg host stats (some (JVal.jobj fs))).stats.commands =
      stats.commands + 1 := by
  simp only [process_message]
  repeat' split
  all_goals rfl

theorem dispatch_counter_step (cfg : Config) (host : Host) (stats : Stats)
    (msg : Option JVal) :
    (process_message cfg host stats msg).stats.commands ≤ stats.commands + 1 ∧
    (process_message cfg host stats msg).stats.movements
        + (process_message cfg host stats msg).stats.clicks + stats.commands
      ≤ stats.movements + stats.clicks
        + (process_message cfg host stats msg).stats.commands := by
  simp only [process_message]
  repeat' split
  all_goals dsimp only
  all_goals omega

theorem runFrames_le (cfg : Config) (l : List (Host × Option JVal)) :
    ∀ stats : Stats, stats.movements + stats.clicks ≤ stats.commands →
      (runFrames cfg l stats).movements + (runFrames cfg l stats).clicks ≤
        (runFrames cfg l stats).commands := by
  induction l with
  | nil => intro stats h; simpa [runFrames] using h
  | cons p rest ih =>
    intro stats h
    rw [runFrames]
    apply ih
    have hstep := dispatch_counter_step cfg p.1 stats p.2
    rcases p with ⟨host, msg⟩
    omega

/-- C9: each dispatch increments `commandsReceived` by at most one, and
increments `movesApplied` and `clicksApplied` by at most as much as it
increments `commandsReceived`; consequently, starting from the all-zero
statistics record, `movesApplied + clicksApplied ≤ commandsReceived` holds
after dispatching any sequence of frames. -/
theorem counters_invariant (cfg : Config) (l : List (Host × Option JVal)) :
    (∀ (host : Host) (stats : Stats) (msg : Option JVal),
      (process_message cfg host stats msg).stats.commands ≤ stats.commands + 1 ∧
      (process_message cfg host stats msg).stats.movements
          + (process_message cfg host stats msg).stats.clicks + stats.commands
        ≤ stats.movements + stats.clicks
          + (process_message cfg host stats msg).stats.commands) ∧
    (runFrames cfg l ⟨0, 0, 0⟩).movements + (runFrames cfg l ⟨0, 0, 0⟩).clicks ≤
      (runFrames cfg l ⟨0, 0, 0⟩).commands := by
  refine ⟨fun host stats msg => dispatch_counter_step cfg host stats msg, ?_⟩
  exact runFrames_le cfg l ⟨0, 0, 0⟩ (by simp)

/-- C7: a frame whose bytes are not valid JSON (`json.loads` raises) leaves
the statistics record untouched, performs no host call, sends no reply, and
the exception is caught by the dispatcher's own handler, so the connection
loop continues. -/
theorem malformed_frame_noop (cfg : Config) (host : Host) (stats : Stats) :
    process_message cfg host stats none = ⟨stats, [], [], .decodeError⟩ := rfl

/-- C10: a frame that decodes to a non-object JSON value (number, string,
array, boolean or null) raises `AttributeError` at `data.get` before the
`commandsReceived` increment; the exception is caught, so all counters are
unchanged, no host call is made and no reply is sent. -/
theorem nonobject_frame_noop (cfg : Config) (host : Host) (stats : Stats)
    (v : JVal) (h : isObj v = false) :
    process_message cfg host stats (some v) = ⟨stats, [], [], .processingError⟩ := by
  cases v with
  | jobj fs => simp [isObj] at h
  | jnull => rfl
  | jbool b => rfl
  | jnum q => rfl
  | jstr s => rfl
  | jarr es => rfl

theorem nonobject_frame_noop_witness :
    process_message defaultConfig sampleHost ⟨0, 0, 0⟩ (some (JVal.jnum 5)) =
      ⟨⟨0, 0, 0⟩, [], [], .processingError⟩ :=
  nonobject_frame_noop defaultConfig sampleHost ⟨0, 0, 0⟩ (JVal.jnum 5) rfl

/-- C4: dispatching any sequence of frames that all decode to JSON objects
increments `commandsReceived` by exactly the number of frames, one per frame,
whatever each frame's type, command string, or injection outcome. -/
theorem commands_counts_objects (cfg : Config) (l : List (Host × Option JVal)) :
    ∀ stats : Stats, (∀ p ∈ l, ∃ fs, p.2 = some (JVal.jobj fs)) →
      (runFrames cfg l stats).commands = stats.commands + l.length := by
  induction l with
  | nil => intro stats _; simp [runFrames]
  | cons p rest ih =>
    intro stats h
    obtain ⟨fs, hfs⟩ := h p (List.mem_cons_self p rest)
    rcases p with ⟨host, msg⟩
    rw [runFrames]
    rw [ih _ (fun q hq => h q (List.mem_cons_of_mem _ hq))]
    simp only at hfs
    rw [hfs, commands_obj]
    simp [List.length_cons]
    omega

theorem commands_counts_objects_witness :
    (runFrames defaultConfig
        (List.replicate 1000 (sampleHost, some (JVal.jobj []))) ⟨0, 0, 0⟩).commands =
      1000 := by
  have h := commands_counts_objects defaultConfig
    (List.replicate 1000 (sampleHost, some (JVal.jobj []))) ⟨0, 0, 0⟩
    (by intro p hp; rw [List.eq_of_mem_replicate hp]; exact ⟨[], rfl⟩)
  rw [List.length_replicate] at h
  simpa only [Nat.zero_add] using h

theorem trunc_3_default : truncRat ((3 : ℚ) * defaultConfig.accel) = 3 :=
  truncRat_eq_of_nonneg (by norm_num [defaultConfig, MOUSE_ACCELERATION])
    (by norm_num [defaultConfig, MOUSE_ACCELERATION])
    (by norm_num [defaultConfig, MOUSE_ACCELERATION])

theorem trunc_5_default : truncRat ((5 : ℚ) * defaultConfig.accel) = 6 :=
  truncRat_eq_of_nonneg (by norm_num [defaultConfig, MOUSE_ACCELERATION])
    (by norm_num [defaultConfig, MOUSE_ACCELERATION])
    (by norm_num [defaultConfig, MOUSE_ACCELERATION])

theorem trunc_negbig_default :
    truncRat ((-999999 : ℚ) * defaultConfig.accel) = -1199998 :=
  truncRat_eq_of_neg (by norm_num [defaultConfig, MOUSE_ACCELERATION])
    (by norm_num [defaultConfig, MOUSE_ACCELERATION])
    (by norm_num [defaultConfig, MOUSE_ACCELERATION])

theorem trunc_10_accel2 : truncRat ((10 : ℚ) * accel2Config.accel) = 20 :=
  truncRat_eq_of_nonneg (by norm_num [accel2Config]) (by norm_num [accel2Config])
    (by norm_num [accel2Config])

theorem trunc_neg5_accel2 : truncRat ((-5 : ℚ) * accel2Config.accel) = -10 :=
  truncRat_eq_of_neg (by norm_num [accel2Config]) (by norm_num [accel2Config])
    (by norm_num [accel2Config])

theorem round_3_default : round ((3 : ℚ) * defaultConfig.accel) = 4 := by
  rw [show (3 : ℚ) * defaultConfig.accel = 18 / 5 by
    norm_num [defaultConfig, MOUSE_ACCELERATION]]
  rw [round_eq, Int.floor_eq_iff]
  norm_num

/-- C1: on a move frame with numeric deltas, each scaled delta is the raw
delta times the acceleration factor truncated toward zero; when they are not
both zero the host is commanded to move to the clamped target, which lies
inside the screen bounds. -/
theorem move_target_clamped (cfg : Config) (host : Host) (stats : Stats)
    (fs : List (String × JVal)) (dx dy : ℚ)
    (hW : 1 ≤ host.screenW) (hH : 1 ≤ host.screenH)
    (hty : jget fs "type" = some (JVal.jstr "move"))
    (hdx : jget fs "deltaX" = some (JVal.jnum dx))
    (hdy : jget fs "deltaY" = some (JVal.jnum dy))
    (hnz : ¬(truncRat (dx * cfg.accel) = 0 ∧ truncRat (dy * cfg.accel) = 0)) :
    (process_message cfg host stats (some (JVal.jobj fs))).calls =
      [HostCall.readPos, HostCall.readSize,
       HostCall.moveTo
         (clamp (host.posX + truncRat (dx * cfg.accel)) 0 (host.screenW - 1))
         (clamp (host.posY + truncRat (dy * cfg.accel)) 0 (host.screenH - 1))
         cfg.smooth] ∧
    0 ≤ clamp (host.posX + truncRat (dx * cfg.accel)) 0 (host.screenW - 1) ∧
    clamp (host.posX + truncRat (dx * cfg.accel)) 0 (host.screenW - 1) ≤ host.screenW - 1 ∧
    0 ≤ clamp (host.posY + truncRat (dy * cfg.accel)) 0 (host.screenH - 1) ∧
    clamp (host.posY + truncRat (dy * cfg.accel)) 0 (host.screenH - 1) ≤ host.screenH - 1 := by
  rw [move_branch_eq cfg host stats fs _ _ hty (by rw [hdx]; rfl) (by rw [hdy]; rfl)]
  simp only [moveResult]
  rw [if_pos (by tauto)]
  refine ⟨?_, ?_, ?_, ?_, ?_⟩
  · cases hf : host.failMove <;> simp [clamp]
  all_goals simp only [clamp]
  all_goals omega

theorem move_target_clamped_witness :
    (process_message defaultConfig edgeHost ⟨0, 0, 0⟩
        (some (JVal.jobj bigNegMoveFrame))).calls =
      [HostCall.readPos, HostCall.readSize, HostCall.moveTo 0 5 true] := by
  have h := move_target_clamped defaultConfig edgeHost ⟨0, 0, 0⟩ bigNegMoveFrame
    (-999999) 0 (by norm_num [edgeHost]) (by norm_num [edgeHost]) rfl rfl rfl
    (by rw [trunc_negbig_default, truncRat_zero_mul]; norm_num)
  rw [h.1, trunc_negbig_default, truncRat_zero_mul]
  norm_num [edgeHost, clamp, defaultConfig, SMOOTH_MOVEMENT]

/-- C2 as stated is false: the code truncates toward zero, it does not round
to the nearest integer.  At `deltaX = 3` with the default acceleration 1.2
the code commands x-target 103 from x-position 100, while the claim's
round-to-nearest formula gives 104. -/
theorem round_target_counterexample :
    moveTargets (process_message defaultConfig sampleHost ⟨0, 0, 0⟩
        (some (JVal.jobj moveFrame3))) = [(103, 100)] ∧
    specRoundTarget sampleHost.posX 3 defaultConfig.accel sampleHost.screenW = 104 ∧
    ((103 : ℤ), (100 : ℤ)) ≠ ((104 : ℤ), (100 : ℤ)) := by
  refine ⟨?_, ?_, by norm_num⟩
  · rw [move_branch_eq defaultConfig sampleHost ⟨0, 0, 0⟩ moveFrame3 _ _ rfl rfl rfl]
    simp only [moveResult]
    rw [trunc_3_default, truncRat_zero_mul]
    rw [if_pos (by norm_num)]
    norm_num [sampleHost, moveTargets, defaultConfig, SMOOTH_MOVEMENT]
    rfl
  · rw [specRoundTarget, round_3_default]
    norm_num [sampleHost, clamp]

/-- C2 amended: on each axis independently, the commanded target equals
`clamp(current + trunc(delta * accelerationFactor), 0, bound - 1)` where
`trunc` truncates toward zero (not round-to-nearest). -/
theorem move_target_trunc_each_axis (cfg : Config) (host : Host) (stats : Stats)
    (fs : List (String × JVal)) (dx dy : ℚ)
    (hty : jget fs "type" = some (JVal.jstr "move"))
    (hdx : jget fs "deltaX" = some (JVal.jnum dx))
    (hdy : jget fs "deltaY" = some (JVal.jnum dy))
    (hnz : ¬(truncRat (dx * cfg.accel) = 0 ∧ truncRat (dy * cfg.accel) = 0)) :
    moveTargets (process_message cfg host stats (some (JVal.jobj fs))) =
      [(clamp (host.posX + truncRat (dx * cfg.accel)) 0 (host.screenW - 1),
        clamp (host.posY + truncRat (dy * cfg.accel)) 0 (host.screenH - 1))] := by
  rw [move_branch_eq cfg host stats fs _ _ hty (by rw [hdx]; rfl) (by rw [hdy]; rfl)]
  simp only [moveResult]
  rw [if_pos (by tauto)]
  cases hf : host.failMove <;> simp [moveTargets, clamp]

theorem move_target_trunc_each_axis_witness :
    moveTargets (process_message accel2Config sampleHost ⟨0, 0, 0⟩
        (some (JVal.jobj scenarioMoveFrame))) = [(120, 90)] := by
  have h := move_target_trunc_each_axis accel2Config sampleHost ⟨0, 0, 0⟩
    scenarioMoveFrame 10 (-5) rfl rfl rfl
    (by rw [trunc_10_accel2, trunc_neg5_accel2]; norm_num)
  rw [h, trunc_10_accel2, trunc_neg5_accel2]
  norm_num [sampleHost, clamp]

theorem isStr_jstr (t s : String) : isStr (JVal.jstr t) s = (t == s) := rfl

theorem isStr_true_iff (v : JVal) (s : String) : isStr v s = true ↔ v = JVal.jstr s := by
  cases v <;> simp [isStr]

/-- C3 as stated is false: a move frame whose `deltaX` holds a non-numeric
value is not treated as `deltaX = 0`.  The multiplication by the acceleration
factor raises `TypeError`, the generic handler catches it, and the frame is
dropped.  With `deltaY = 5` (scaling to 6 ≠ 0) the claim predicts a host move
and a `movesApplied` increment; the code makes no host call and leaves
`movesApplied` at 0. -/
theorem nonnumeric_delta_counterexample :
    (process_message defaultConfig sampleHost ⟨0, 0, 0⟩
        (some (JVal.jobj badDeltaFrame))).calls = [] ∧
    (process_message defaultConfig sampleHost ⟨0, 0, 0⟩
        (some (JVal.jobj badDeltaFrame))).stats.movements = 0 ∧
    (process_message defaultConfig sampleHost ⟨0, 0, 0⟩
        (some (JVal.jobj badDeltaFrame))).outcome = Outcome.processingError ∧
    truncRat ((5 : ℚ) * defaultConfig.accel) ≠ 0 := by
  refine ⟨rfl, rfl, rfl, ?_⟩
  rw [trunc_5_default]
  norm_num

/-- C3 amended: an absent delta field is coerced to 0 and the frame proceeds
through the move branch with the coerced deltas; a present non-numeric delta
value raises internally and the frame is dropped — `commandsReceived` has
been incremented, but no host call is made, no reply is sent, `movesApplied`
is unchanged.  In both cases the dispatcher catches the exception and
returns, so nothing propagates out. -/
theorem delta_coercion_behavior :
    (∀ accel : ℚ, coerceDelta none accel = some 0) ∧
    (∀ (cfg : Config) (host : Host) (stats : Stats) (fs : List (String × JVal)) (dx dy : ℤ),
      jget fs "type" = some (JVal.jstr "move") →
      coerceDelta (jget fs "deltaX") cfg.accel = some dx →
      coerceDelta (jget fs "deltaY") cfg.accel = some dy →
      process_message cfg host stats (some (JVal.jobj fs)) =
        moveResult cfg host stats dx dy) ∧
    (∀ (cfg : Config) (host : Host) (stats : Stats) (fs : List (String × JVal)),
      jget fs "type" = some (JVal.jstr "move") →
      (coerceDelta (jget fs "deltaX") cfg.accel = none ∨
       coerceDelta (jget fs "deltaY") cfg.accel = none) →
      process_message cfg host stats (some (JVal.jobj fs)) =
        ⟨⟨stats.commands + 1, stats.movements, stats.clicks⟩, [], [], .processingError⟩) := by
  refine ⟨?_, move_branch_eq, move_branch_badDelta⟩
  intro accel
  simp [coerceDelta, truncRat_zero, truncRat_zero_mul]

theorem delta_coercion_behavior_witness :
    process_message defaultConfig sampleHost ⟨0, 0, 0⟩ (some (JVal.jobj badDeltaFrame)) =
      ⟨⟨1, 0, 0⟩, [], [], .processingError⟩ :=
  delta_coercion_behavior.2.2 defaultConfig sampleHost ⟨0, 0, 0⟩ badDeltaFrame rfl
    (Or.inl rfl)

/-- C6: a move frame whose deltas are both zero (each given as 0 or absent)
is a no-op apart from the `commandsReceived` count: `movesApplied` is
unchanged and no host call at all is made — no position read, no size read,
no move. -/
theorem zero_move_noop (cfg : Config) (host : Host) (stats : Stats)
    (fs : List (String × JVal))
    (hty : jget fs "type" = some (JVal.jstr "move"))
    (hdx : jget fs "deltaX" = none ∨ jget fs "deltaX" = some (JVal.jnum 0))
    (hdy : jget fs "deltaY" = none ∨ jget fs "deltaY" = some (JVal.jnum 0)) :
    process_message cfg host stats (some (JVal.jobj fs)) =
      ⟨⟨stats.commands + 1, stats.movements, stats.clicks⟩, [], [], .ok⟩ := by
  have hx : coerceDelta (jget fs "deltaX") cfg.accel = some 0 := by
    rcases hdx with h | h <;> rw [h] <;> simp [coerceDelta, truncRat_zero, truncRat_zero_mul]
  have hy : coerceDelta (jget fs "deltaY") cfg.accel = some 0 := by
    rcases hdy with h | h <;> rw [h] <;> simp [coerceDelta, truncRat_zero, truncRat_zero_mul]
  rw [move_branch_eq cfg host stats fs 0 0 hty hx hy]
  simp [moveResult]

theorem zero_move_noop_witness :
    process_message defaultConfig sampleHost ⟨3, 1, 1⟩ (some (JVal.jobj zeroMoveFrame)) =
      ⟨⟨4, 1, 1⟩, [], [], .ok⟩ :=
  zero_move_noop defaultConfig sampleHost ⟨3, 1, 1⟩ zeroMoveFrame rfl
    (Or.inr rfl) (Or.inr rfl)

/-- C5: a command frame whose command string is "leftclick" yields exactly
one reply frame, `{type: "response", message: "Click executed"}` (on a host
whose left-click injection does not raise — the raising case is the
error-handling claim); a command frame with any other command string yields
no reply. -/
theorem leftclick_reply_unique (cfg : Config) (host : Host) (stats : Stats)
    (fs : List (String × JVal))
    (hty : jget fs "type" = some (JVal.jstr "command"))
    (hok : host.failClickLeft = false) :
    (isStr (jgetD fs "command" (JVal.jstr "")) "leftclick" = true →
      (process_message cfg host stats (some (JVal.jobj fs))).replies =
        [⟨"response", "Click executed"⟩]) ∧
    (isStr (jgetD fs "command" (JVal.jstr "")) "leftclick" = false →
      (process_message cfg host stats (some (JVal.jobj fs))).replies = []) := by
  constructor <;> intro hcmd
  · rw [isStr_true_iff] at hcmd
    simp only [jgetD] at hcmd
    simp [process_message, jgetD, hty, isStr_jstr, hcmd, hok]
  · simp only [jgetD] at hcmd
    simp only [process_message, jgetD, hty, Option.getD_some, isStr_jstr, hcmd]
    norm_num
    repeat' split
    all_goals rfl

theorem leftclick_reply_unique_witness :
    (process_message defaultConfig sampleHost ⟨0, 0, 0⟩
        (some (JVal.jobj leftclickFrame))).replies =
      [⟨"response", "Click executed"⟩] :=
  (leftclick_reply_unique defaultConfig sampleHost ⟨0, 0, 0⟩ leftclickFrame rfl rfl).1 rfl

/-- C8: a dispatch during which the host injection primitive raises is
recoverable: the exception is caught inside the dispatcher (so the connection
loop continues), no reply is sent, the corresponding applied counter
(`movesApplied` for a move, `clicksApplied` for a click) is unchanged, and
`commandsReceived` has still been incremented. -/
theorem injection_failure_recoverable :
    (∀ (cfg : Config) (host : Host) (stats : Stats) (fs : List (String × JVal)) (dx dy : ℤ),
      jget fs "type" = some (JVal.jstr "move") →
      coerceDelta (jget fs "deltaX") cfg.accel = some dx →
      coerceDelta (jget fs "deltaY") cfg.accel = some dy →
      ¬(dx = 0 ∧ dy = 0) → host.failMove = true →
      process_message cfg host stats (some (JVal.jobj fs)) =
        ⟨⟨stats.commands + 1, stats.movements, stats.clicks⟩,
         [HostCall.readPos, HostCall.readSize,
          HostCall.moveTo (clamp (host.posX + dx) 0 (host.screenW - 1))
            (clamp (host.posY + dy) 0 (host.screenH - 1)) cfg.smooth],
         [], .processingError⟩) ∧
    (∀ (cfg : Config) (host : Host) (stats : Stats) (fs : List (String × JVal)),
      jget fs "type" = some (JVal.jstr "command") →
      ((isStr (jgetD fs "command" (JVal.jstr "")) "leftclick" = true ∧
          host.failClickLeft = true) ∨
       (isStr (jgetD fs "command" (JVal.jstr "")) "rightclick" = true ∧
          host.failClickRight = true) ∨
       (isStr (jgetD fs "command" (JVal.jstr "")) "doubleclick" = true ∧
          host.failClickDouble = true)) →
      (process_message cfg host stats (some (JVal.jobj fs))).stats =
          ⟨stats.commands + 1, stats.movements, stats.clicks⟩ ∧
        (process_message cfg host stats (some (JVal.jobj fs))).replies = [] ∧
        (process_message cfg host stats (some (JVal.jobj fs))).outcome =
          Outcome.processingError) := by
  constructor
  · intro cfg host stats fs dx dy hty hdx hdy hnz hfail
    rw [move_branch_eq cfg host stats fs dx dy hty hdx hdy]
    simp only [moveResult]
    rw [if_pos (by tauto)]
    simp [hfail, clamp]
  · intro cfg host stats fs hty hcase
    rcases hcase with ⟨hcmd, hfail⟩ | ⟨hcmd, hfail⟩ | ⟨hcmd, hfail⟩ <;>
      rw [isStr_true_iff] at hcmd <;> simp only [jgetD] at hcmd <;>
      simp [process_message, jgetD, hty, isStr_jstr, hcmd, hfail]

theorem injection_failure_recoverable_witness :
    process_message accel2Config failingMoveHost ⟨0, 0, 0⟩
        (some (JVal.jobj scenarioMoveFrame)) =
      ⟨⟨1, 0, 0⟩,
       [HostCall.readPos, HostCall.readSize, HostCall.moveTo 120 90 true],
       [], .processingError⟩ := by
  have h := injection_failure_recoverable.1 accel2Config failingMoveHost ⟨0, 0, 0⟩
    scenarioMoveFrame 20 (-10) rfl
    (by rw [show jget scenarioMoveFrame "deltaX" = some (JVal.jnum 10) from rfl]
        simp only [coerceDelta]
        rw [trunc_10_accel2])
    (by rw [show jget scenarioMoveFrame "deltaY" = some (JVal.jnum (-5)) from rfl]
        simp only [coerceDelta]
        rw [trunc_neg5_accel2])
    (by norm_num) rfl
  rw [h]
  norm_num [failingMoveHost, accel2Config, clamp]
